import Mathlib

/-!
Verification development for the `treehouse` scraper repository.

The core under verification is the extraction-and-validation pipeline of
`src/treehouse/scraper/extraction.py` (class `ShopExtractionStrategy`),
the pydantic models of `src/treehouse/scraper/models.py`, and the
per-field selector diagnostic `validate_selector` of
`src/treehouse/scraper/verify_selectors.py`.

Modelling conventions:
- A BeautifulSoup element is modelled as `Node`: its raw text (what
  `get_text(strip=False)` would return) and its attribute list.
  `Node.stext` models `get_text(strip=True)`; `Node.get` models
  `element.get(attr)` returning `Option String`.
- A product container element (which the source queries with
  `item.select_one` / `item.select`) is modelled as `Container`: an
  association list from selector string to the matched child nodes,
  in document order.
- Python exceptions (`ValueError`, `AttributeError`, pydantic
  `ValidationError`) are modelled with `Except String`; the message is
  the Python message with the quote characters around interpolated
  names omitted.
- Python numbers produced by `float` and `int` are modelled in `ℚ`
  and `ℤ`; `pyFloat` models the accepted decimal grammar of `float()`
  on the strings in scope (optional sign, integer part, optional
  fractional part; exponents and the inf/nan spellings are outside the
  inputs this development evaluates and are not modelled).
- `str(element)` is modelled by `strElem`, an abstract rendering that
  keeps the text and attributes.
-/

/-- Numeric value of a list of decimal digit characters, most significant
first, as produced by Python `int` on a digit string. -/
def digitsVal (cs : List Char) : ℕ :=
  cs.foldl (fun a c => 10 * a + (c.toNat - 48)) 0

/-- Drop leading and trailing whitespace from a character list. -/
def stripWsL (cs : List Char) : List Char :=
  ((cs.dropWhile Char.isWhitespace).reverse.dropWhile Char.isWhitespace).reverse

/-- Model of Python `s.strip()`. -/
def pyStrip (s : String) : String :=
  String.mk (stripWsL s.toList)

/-- Model of Python `float(s)` on decimal strings: optional surrounding
whitespace, optional sign, then `digits`, `digits.digits`, `digits.` or
`.digits`. Returns `none` where CPython raises `ValueError`. The value
`m.f` is built as `mkRat` of the digit mantissa over the fraction power
of ten. -/
def pyFloat (s : String) : Option ℚ :=
  let cs := stripWsL s.toList
  let negAndBody : Bool × List Char :=
    match cs with
    | '-' :: rest => (true, rest)
    | '+' :: rest => (false, rest)
    | _ => (false, cs)
  let neg := negAndBody.1
  let body := negAndBody.2
  let signed : ℕ → ℤ := fun n => if neg then -(n : ℤ) else (n : ℤ)
  let intPart := body.takeWhile Char.isDigit
  let rest := body.dropWhile Char.isDigit
  match rest with
  | [] =>
    if intPart.isEmpty then none
    else some (mkRat (signed (digitsVal intPart)) 1)
  | '.' :: frac =>
    if frac.all Char.isDigit ∧ ¬ (intPart.isEmpty ∧ frac.isEmpty) then
      some (mkRat (signed (digitsVal intPart * 10 ^ frac.length + digitsVal frac))
        (10 ^ frac.length))
    else none
  | _ => none

/-- Model of Python `s.split()[0]`: the first whitespace-delimited token;
`none` models the `IndexError` on an empty/whitespace string. -/
def pySplitWsHead (s : String) : Option String :=
  let t := (s.toList.dropWhile Char.isWhitespace).takeWhile
    (fun c => ¬ c.isWhitespace)
  if t.isEmpty then none else some (String.mk t)

/-- Truthiness of `element.get(attr)` in Python: `None` and the empty
string are falsy. -/
def pyTruthyOpt : Option String → Bool
  | none => false
  | some s => s ≠ ""

/-- Truthiness of a Python list: non-empty. -/
def pyBool {α : Type} (l : List α) : Bool :=
  !l.isEmpty

/-- Boolean infix test on character lists (is the first list a contiguous
sublist of the second). -/
def isInfixB (pat : List Char) : List Char → Bool
  | [] => pat.isEmpty
  | c :: rest => pat.isPrefixOf (c :: rest) || isInfixB pat rest

/-- Whether `pat` occurs as a substring of `s`. -/
def containsSub (s pat : String) : Bool :=
  isInfixB pat.toList s.toList

/-- Whether an `Except` value is a success. -/
def exceptOk {ε α : Type} : Except ε α → Bool
  | Except.ok _ => true
  | Except.error _ => false

/-- A parsed HTML element: raw text content and attribute list. -/
structure Node where
  text : String
  attrs : List (String × String)
deriving DecidableEq

/-- Model of `element.get(attr)` (no default): the attribute value when
present, else `None`. -/
def Node.get (n : Node) (a : String) : Option String :=
  (n.attrs.find? (fun p => p.1 == a)).map Prod.snd

/-- Model of `element.get_text(strip=True)`. -/
def Node.stext (n : Node) : String :=
  pyStrip n.text

/-- Abstract model of Python `str(element)`: a rendering determined by the
attributes and text. -/
def strElem (n : Node) : String :=
  "<elem " ++ String.intercalate " " (n.attrs.map (fun p => p.1 ++ "=" ++ p.2))
    ++ ">" ++ n.text ++ "</elem>"

/-- A product container element; `sub` maps a CSS selector string to the
child nodes it matches inside the container subtree, in document order. -/
structure Container where
  sub : List (String × List Node)
deriving DecidableEq

/-- Model of `container.select(sel)`: all matches inside the subtree. -/
def Container.select (c : Container) (sel : String) : List Node :=
  (((c.sub.find? (fun p => p.1 == sel))).map Prod.snd).getD []

/-- Model of `container.select_one(sel)`: first match or `None`. -/
def Container.selectOne (c : Container) (sel : String) : Option Node :=
  (c.select sel).head?

/-- The selector table from `ShopExtractionStrategy.__init__`
(extraction.py lines 12-44), as a map from field name to selector. -/
def selectorsMap : String → String
  | "name" => "h1"
  | "description" => "div[style*=\x27white-space:pre-wrap\x27]"
  | "rating" => "div[style*=\x27text-align:center\x27] img[alt=\x27rating\x27]"
  | "reviews.count" =>
      "div[style*=\x27text-align:center\x27] div[style*=\x27font-size:22px\x27]"
  | "verified" => "div[style*=\x27color: rgb(74, 153, 233)\x27]"
  | "status.delivery" => "div[style*=\x27color: rgb(74, 153, 233)\x27]"
  | "special_offers" => "div._Dispensary_medcardHeader___L6AM"
  | "images.main" => "div.FeaturedImage_featuredImage__GA2Cw img[alt*=\x27og.th\x27]"
  | "images.gallery" =>
      "div.FeaturedImage_featuredImage__GA2Cw img[loading=\x27eager\x27]"
  | "products.categories" => "h2.ShopProductAll_productsHeader__10hBt"
  | "products.items" => "div.ShopProductAll_product__Cc_k7"
  | "products.item.name" => "div.ShopProductAll_header__BSmhH a"
  | "products.item.price" => "div.ShopProductAll_prices__pWISY"
  | "products.item.description" => "div.ShopProductAll_description__ItGaW"
  | "products.item.category" => "div.ShopProductAll_chips__jqQLw div div"
  | "products.item.image" => "div.ShopProductAll_imageContainer__1TiEr img"
  | "contact.website" =>
      "div[style*=\x27border:1px solid #04b14e\x27] svg[width=\x2726\x27][height=\x2726\x27]"
  | "contact.line" =>
      "div[style*=\x27border:1px solid #04b14e\x27] path[d*=\x27M256 64C150\x27]"
  | "location.area" => "h2 a[href*=\x27/cannabis/\x27]"
  | "location.map" => "div.layout_map__AFkLI"
  | _ => ""

/-- `ProductItem` of models.py, fields after pydantic validation. -/
structure ProductItem where
  name : String
  price : Option ℚ
  description : Option String
  category : List String
  image : Option String
deriving DecidableEq

/-- The coordinate dict built in `_process_map`; its entries are the
conditional expressions of extraction.py lines 200-201, so either side can
in principle be `None`. -/
structure Coordinates where
  lat : Option ℚ
  lng : Option ℚ
deriving DecidableEq

/-- `MapLocation` of models.py. -/
structure MapLoc where
  element : String
  coordinates : Option Coordinates
deriving DecidableEq

/-- The contact dict of `_process_contact`. -/
structure Contact where
  website : Option String
  line : Option String
deriving DecidableEq

/-- The images dict of `extract`. -/
structure Images where
  main : String
  gallery : List String
deriving DecidableEq

/-- The products dict of `_process_products`. -/
structure Products where
  categories : List String
  items : List ProductItem
deriving DecidableEq

/-- The location dict of `_process_location`. -/
structure LocationData where
  area : String
  map : MapLoc
deriving DecidableEq

/-- The metadata dict passed by `extract` (extraction.py lines 86-89):
only these two keys are set there. -/
structure Metadata where
  missing_optional_fields : List String
  validation_errors : List String
deriving DecidableEq

/-- `ShopData` of models.py. -/
structure ShopData where
  name : String
  description : String
  rating : ℚ
  reviews_count : Option ℤ
  verified : Bool
  delivery_service : Bool
  special_offers : List String
  images : Images
  products : Products
  contact : Option Contact
  location : LocationData
  metadata : Metadata
deriving DecidableEq

/-- The raw extraction result handed to `extract` by the base strategy
(`raw_data` in extraction.py). Fields the code reads with `_get_text`
(`data.get(field, "").strip()`) are strings; fields the code indexes and
iterates are node lists; `products.categories`, `products.items` and the
contact fields, whose presence the code tests with `in data`, are
`Option`-wrapped. -/
structure RawData where
  name : String
  description : String
  rating : List Node
  reviewsCount : List Node
  verified : List Node
  statusDelivery : List Node
  specialOffers : List Node
  imagesMain : List Node
  imagesGallery : List Node
  productsCategories : Option (List Node)
  productsItems : Option (List Container)
  contactWebsite : Option (List Node)
  contactLine : Option (List Node)
  locationArea : String
  locationMap : List Node

/-- `_get_text` (extraction.py lines 98-103): strip the value and raise
`ValueError` when it is empty and the field is not one of the listed
optional fields. -/
def get_text (value : String) (field : String) : Except String String :=
  let v := pyStrip value
  if v = "" ∧
      ¬ (["reviews.count", "verified", "status.delivery", "special_offers"].contains field) then
    Except.error ("Required field " ++ field ++ " is missing")
  else
    Except.ok v

/-- `_get_image_url` (extraction.py lines 105-109): raise when the field is
absent or empty, else the `src` attribute of the first node (default ""). -/
def get_image_url (field : String) (l : List Node) : Except String String :=
  match l with
  | [] => Except.error ("Required image field " ++ field ++ " is missing")
  | n :: _ => Except.ok ((n.get "src").getD "")

/-- `_get_gallery_urls` (extraction.py lines 111-113): the `src` of every
gallery node whose `src` is truthy. -/
def get_gallery_urls (l : List Node) : List String :=
  l.filterMap (fun n =>
    match n.get "src" with
    | some s => if s ≠ "" then some s else none
    | none => none)

/-- `_parse_rating` (extraction.py lines 115-124): raise when the match
list is falsy; else `float(alt.split()[0])` of the first node, with
`IndexError` and `ValueError` both caught and turned into `0.0`. -/
def parse_rating (ratingData : List Node) : Except String ℚ :=
  match ratingData with
  | [] => Except.error "Rating is required"
  | n :: _ =>
    match pySplitWsHead ((n.get "alt").getD "0") with
    | none => Except.ok 0
    | some w =>
      match pyFloat w with
      | none => Except.ok 0
      | some v => Except.ok v

/-- `_parse_reviews_count` (extraction.py lines 126-135): `None` when the
match list is falsy; else `int` of the concatenation of every digit
character of the first node text, `None` when that raises. -/
def parse_reviews_count (reviewsData : List Node) : Option ℕ :=
  match reviewsData with
  | [] => none
  | n :: _ =>
    let ds := n.stext.toList.filter Char.isDigit
    if ds.isEmpty then none else some (digitsVal ds)

/-- `_parse_special_offers` (extraction.py lines 137-141): stripped text of
every node whose stripped text is truthy. -/
def parse_special_offers (offersData : List Node) : List String :=
  offersData.filterMap (fun n => if n.stext ≠ "" then some n.stext else none)

/-- `_parse_price` (extraction.py lines 206-215): `None` for a falsy
element; else `float` of the concatenation of every digit character of the
element text, `None` when that raises. -/
def parse_price (priceElement : Option Node) : Option ℚ :=
  match priceElement with
  | none => none
  | some n =>
    let ds := n.stext.toList.filter Char.isDigit
    if ds.isEmpty then none else some ((digitsVal ds : ℚ))

/-- One iteration of the product loop of `_process_products`
(extraction.py lines 159-167) together with the pydantic `ProductItem`
name validator (models.py lines 14-18). `select_one` returning `None`
makes the `get_text` call raise `AttributeError`; an empty-after-strip
name makes the pydantic validator raise. -/
def mkProductItem (c : Container) : Except String ProductItem :=
  match c.selectOne (selectorsMap "products.item.name") with
  | none =>
    Except.error "AttributeError: NoneType object has no attribute get_text"
  | some nameNode =>
    let nm := nameNode.stext
    if pyStrip nm = "" then
      Except.error "Product name cannot be empty"
    else
      Except.ok
        { name := pyStrip nm
          price := parse_price (c.selectOne (selectorsMap "products.item.price"))
          description :=
            (c.selectOne (selectorsMap "products.item.description")).map Node.stext
          category :=
            (c.select (selectorsMap "products.item.category")).map Node.stext
          image :=
            (c.selectOne (selectorsMap "products.item.image")).bind
              (fun n => n.get "src") }

/-- The `for item in data["products.items"]` loop of `_process_products`:
items are assembled in order and the first raising container aborts the
whole loop (there is no per-item exception handling in the source). -/
def buildItems : List Container → Except String (List ProductItem)
  | [] => Except.ok []
  | c :: rest =>
    match mkProductItem c with
    | Except.error e => Except.error e
    | Except.ok p =>
      match buildItems rest with
      | Except.error e => Except.error e
      | Except.ok ps => Except.ok (p :: ps)

/-- `_process_products` (extraction.py lines 143-169): categories are the
stripped texts of every matched node (no filtering); items come from the
container loop. -/
def process_products (cats : Option (List Node)) (items : Option (List Container)) :
    Except String Products :=
  let categories :=
    match cats with
    | none => []
    | some l => l.map Node.stext
  match (match items with | none => Except.ok [] | some cs => buildItems cs) with
  | Except.error e => Except.error e
  | Except.ok itemsList => Except.ok { categories := categories, items := itemsList }

/-- `_process_contact` (extraction.py lines 171-181). -/
def process_contact (web line : Option (List Node)) : Option Contact :=
  let w : Option String :=
    match web with
    | some (n :: _) => some ((n.get "href").getD "")
    | _ => none
  let l : Option String :=
    match line with
    | some (n :: _) => some ((n.get "href").getD "")
    | _ => none
  if w.isNone ∧ l.isNone then none else some { website := w, line := l }

/-- `_process_map` (extraction.py lines 191-204): raise when the match
list is falsy; when both `data-lat` and `data-lng` are truthy, build the
coordinate dict, where each `float(...)` call can raise `ValueError`
(evaluated lat first); otherwise coordinates is `None`. -/
def process_map (mapData : List Node) : Except String MapLoc :=
  match mapData with
  | [] => Except.error "Map element is required"
  | m :: _ =>
    if pyTruthyOpt (m.get "data-lat") ∧ pyTruthyOpt (m.get "data-lng") then
      match (if pyTruthyOpt (m.get "data-lat") then
               match pyFloat ((m.get "data-lat").getD "") with
               | none =>
                 Except.error "ValueError: could not convert string to float"
               | some v => Except.ok (some v)
             else Except.ok none : Except String (Option ℚ)) with
      | Except.error e => Except.error e
      | Except.ok la =>
        match (if pyTruthyOpt (m.get "data-lng") then
                 match pyFloat ((m.get "data-lng").getD "") with
                 | none =>
                   Except.error "ValueError: could not convert string to float"
                 | some v => Except.ok (some v)
               else Except.ok none : Except String (Option ℚ)) with
        | Except.error e => Except.error e
        | Except.ok ln =>
          Except.ok
            { element := strElem m, coordinates := some { lat := la, lng := ln } }
    else
      Except.ok { element := strElem m, coordinates := none }

/-- The pydantic validation of `ShopData` (models.py lines 29-111): the
`rating` range bounds, `reviews_count` lower bound, and the
`validate_images` / `validate_products` / `validate_location` validators,
in field order. `location.map` is a `MapLoc` whose dict rendering is never
empty, so its truthiness check cannot fire in this pipeline. On success
pydantic returns the record unchanged. Pydantic collects the errors of
all failing fields into one `ValidationError`; this model keeps the first
failing check, which agrees with the source on the success case and on
every input evaluated in this development. -/
def validateShopData (d : ShopData) : Except String ShopData :=
  if ¬ (0 ≤ d.rating ∧ d.rating ≤ 5) then
    Except.error "rating: ensure this value is in the range 0 to 5"
  else if d.reviews_count.any (fun n => decide (n < 0)) then
    Except.error "reviews_count: ensure this value is greater than or equal to 0"
  else if d.images.main = "" then
    Except.error "Main image is required"
  else if d.products.categories.isEmpty then
    Except.error "At least one product category is required"
  else if d.products.items.isEmpty then
    Except.error "At least one product item is required"
  else if d.location.area = "" then
    Except.error "Location area is required"
  else
    Except.ok d

/-- `extract` (extraction.py lines 48-96): the shop dict is built key by
key in source order (each helper can raise, the exception is logged and
re-raised), then validated through the pydantic `ShopData` model. The
local `missing_optional_fields` list is initialised empty at line 54 and
never appended to before being stored into the metadata. -/
def extract (rd : RawData) : Except String ShopData :=
  let missing_optional_fields : List String := []
  match get_text rd.name "name" with
  | Except.error e => Except.error e
  | Except.ok nm =>
    match get_text rd.description "description" with
    | Except.error e => Except.error e
    | Except.ok descr =>
      match parse_rating rd.rating with
      | Except.error e => Except.error e
      | Except.ok rating =>
        let reviews := parse_reviews_count rd.reviewsCount
        let verified := pyBool rd.verified
        let delivery := pyBool rd.statusDelivery
        let offers := parse_special_offers rd.specialOffers
        match get_image_url "images.main" rd.imagesMain with
        | Except.error e => Except.error e
        | Except.ok mainImg =>
          let gallery := get_gallery_urls rd.imagesGallery
          match process_products rd.productsCategories rd.productsItems with
          | Except.error e => Except.error e
          | Except.ok products =>
            let contact := process_contact rd.contactWebsite rd.contactLine
            match get_text rd.locationArea "location.area" with
            | Except.error e => Except.error e
            | Except.ok area =>
              match process_map rd.locationMap with
              | Except.error e => Except.error e
              | Except.ok mp =>
                validateShopData
                  { name := nm
                    description := descr
                    rating := rating
                    reviews_count := reviews.map (fun k => (k : ℤ))
                    verified := verified
                    delivery_service := delivery
                    special_offers := offers
                    images := { main := mainImg, gallery := gallery }
                    products := products
                    contact := contact
                    location := { area := area, map := mp }
                    metadata :=
                      { missing_optional_fields := missing_optional_fields
                        validation_errors := [] } }

/-- The raw extraction result that the base `JsonCssExtractionStrategy`
produces for a document: every node-valued field is the result of running
that field selector from `selectorsMap` over the document, modelled by the
query functions `q` (leaf nodes) and `qc` (product containers); the
string-valued fields carry the collaborator text rendering `txt`. -/
def rawFromDoc (q : String → List Node) (qc : String → List Container)
    (txt : String → String) : RawData :=
  { name := txt "name"
    description := txt "description"
    rating := q (selectorsMap "rating")
    reviewsCount := q (selectorsMap "reviews.count")
    verified := q (selectorsMap "verified")
    statusDelivery := q (selectorsMap "status.delivery")
    specialOffers := q (selectorsMap "special_offers")
    imagesMain := q (selectorsMap "images.main")
    imagesGallery := q (selectorsMap "images.gallery")
    productsCategories := some (q (selectorsMap "products.categories"))
    productsItems := some (qc (selectorsMap "products.items"))
    contactWebsite := some (q (selectorsMap "contact.website"))
    contactLine := some (q (selectorsMap "contact.line"))
    locationArea := txt "location.area"
    locationMap := q (selectorsMap "location.map") }

/-- One entry of the `samples` list built by `validate_selector`
(verify_selectors.py): the comprehension at line 335 builds plain
text/attributes dicts; the loop at lines 343-375 then appends dicts that
also carry the element HTML, with special shapes for the location
`coordinates` and `google_maps_link` fields. -/
inductive VSample
  | plain (text : String) (attributes : List (String × String))
  | withHtml (text : String) (attributes : List (String × String)) (html : String)
  | coord (lat lng : Option String) (html : String)
  | mapsLink (href : String) (html : String)
deriving DecidableEq

/-- One field entry of `SELECTORS_TO_TEST` (verify_selectors.py lines
113-256): selector, required flag, the optional ad-hoc validation
predicate (applied to the first matched element), its message, and
whether the entry has an `extract` lambda (only `location.coordinates`
does; that lambda reads the `data-lng` / `data-lat` attributes). -/
structure VConfig where
  selector : String
  required : Bool
  validation : Option (Node → Bool)
  errorMsg : Option String
  warningMsg : Option String
  hasExtract : Bool

/-- `SelectorValidationResult` of verify_selectors.py lines 50-59. -/
structure SelectorValidationResult where
  found : Bool
  count : ℕ
  samples : List VSample
  is_required : Bool
  validation_errors : List String
  validation_warnings : List String
  extracted_value : Option (Option (Option String × Option String))
  html_context : Option String

/-- `validate_selector` (verify_selectors.py lines 325-393). `q` is
`soup.select`; `ctx` stands for `get_html_context(soup, elem)`, which only
feeds the `html_context` diagnostic field. The samples list is the
constructor comprehension over `elements[:3]` followed by the appends of
the sampling loop, which also runs over `elements[:3]`. -/
def validate_selector (q : String → List Node) (ctx : Node → String)
    (sect fld : String) (config : VConfig) : SelectorValidationResult :=
  let elements := q config.selector
  let initSamples := (elements.take 3).map (fun e => VSample.plain e.stext e.attrs)
  let extracted :=
    if config.hasExtract then
      some (match elements.head? with
        | some x => some (x.get "data-lng", x.get "data-lat")
        | none => none)
    else none
  let loopSamples := (elements.take 3).map (fun e =>
    if sect = "location" then
      if fld = "coordinates" then
        VSample.coord (e.get "data-lat") (e.get "data-lng") (strElem e)
      else if fld = "google_maps_link" then
        VSample.mapsLink ((e.get "href").getD "") (strElem e)
      else
        VSample.withHtml e.stext e.attrs (strElem e)
    else
      VSample.withHtml e.stext e.attrs (strElem e))
  let htmlCtx := (elements.take 3).head?.map ctx
  let errsWarns : List String × List String :=
    match config.validation, elements with
    | some f, e :: _ =>
      if f e = false then
        let msg :=
          (if config.required then config.errorMsg else config.warningMsg).getD
            "Validation failed"
        if config.required then ([msg], []) else ([], [msg])
      else ([], [])
    | _, _ => ([], [])
  { found := decide (elements.length > 0)
    count := elements.length
    samples := initSamples ++ loopSamples
    is_required := config.required
    validation_errors := errsWarns.1
    validation_warnings := errsWarns.2
    extracted_value := extracted
    html_context := htmlCtx }

/-- Modelled from the claim wording of C6 (and spec section 4.2): extract
the longest contiguous run of digit characters from the text and parse it
as a number; `none` when the text has no digits. Written for comparison
with `parse_price` / `parse_reviews_count`, which are translated from the
source. -/
def longestDigitRunParse (t : String) : Option ℚ :=
  let runs := (t.toList.splitOnP (fun c => ¬ c.isDigit)).filter
    (fun r => ¬ r.isEmpty)
  let best := runs.foldl (fun acc r => if acc.length < r.length then r else acc) []
  if best.isEmpty then none else some ((digitsVal best : ℚ))

/-- Concatenation-of-all-digits parse, the behaviour the source actually
implements in `_parse_price` and `_parse_reviews_count`
(`int(str.join(filter(str.isdigit, text)))`). -/
def concatDigitsNat (t : String) : Option ℕ :=
  let ds := t.toList.filter Char.isDigit
  if ds.isEmpty then none else some (digitsVal ds)

/-- A leaf node with the given text and no attributes. -/
def nodeOf (t : String) : Node :=
  { text := t, attrs := [] }

/-- A rating element whose alt text parses to 4.5. -/
def ratingNode : Node :=
  { text := "", attrs := [("alt", "4.5 stars")] }

/-- A main-image element with a src attribute. -/
def mainImgNode : Node :=
  { text := "", attrs := [("src", "https://example.com/main.jpg")] }

/-- A map container with parsable coordinate attributes. -/
def mapNode : Node :=
  { text := "Map", attrs := [("data-lat", "2.5"), ("data-lng", "3")] }

/-- A product container with a name match and a price match. -/
def cont1 : Container :=
  { sub :=
      [(selectorsMap "products.item.name", [nodeOf "Blue Dream"]),
       (selectorsMap "products.item.price", [nodeOf "$1200"])] }

/-- A product container whose name selector matches no node. -/
def contNoName : Container :=
  { sub := [(selectorsMap "products.item.price", [nodeOf "$900"])] }

/-- A second well-formed product container. -/
def cont3 : Container :=
  { sub := [(selectorsMap "products.item.name", [nodeOf "OG Kush"])] }

/-- The `ProductItem` assembled from `cont1`. -/
def item1 : ProductItem :=
  { name := "Blue Dream"
    price := some 1200
    description := none
    category := []
    image := none }

/-- The `ProductItem` assembled from `cont3`. -/
def item3 : ProductItem :=
  { name := "OG Kush"
    price := none
    description := none
    category := []
    image := none }

/-- A raw extraction result on which every step of `extract` succeeds. -/
def goodRaw : RawData :=
  { name := "Tree House"
    description := "A shop"
    rating := [ratingNode]
    reviewsCount := [nodeOf "123 reviews"]
    verified := [nodeOf "Verified"]
    statusDelivery := [nodeOf "Verified"]
    specialOffers := [nodeOf "30% off"]
    imagesMain := [mainImgNode]
    imagesGallery := [mainImgNode]
    productsCategories := some [nodeOf "Flowers"]
    productsItems := some [cont1]
    contactWebsite := none
    contactLine := none
    locationArea := "Bangkok"
    locationMap := [mapNode] }

/-- The validated record `extract` produces from `goodRaw`. -/
def goodRecord : ShopData :=
  { name := "Tree House"
    description := "A shop"
    rating := mkRat 9 2
    reviews_count := some 123
    verified := true
    delivery_service := true
    special_offers := ["30% off"]
    images :=
      { main := "https://example.com/main.jpg"
        gallery := ["https://example.com/main.jpg"] }
    products := { categories := ["Flowers"], items := [item1] }
    contact := none
    location :=
      { area := "Bangkok"
        map :=
          { element := strElem mapNode
            coordinates := some { lat := some (mkRat 5 2), lng := some 3 } } }
    metadata := { missing_optional_fields := [], validation_errors := [] } }

/-- Collaborator text rendering used by the C10 witness document. -/
def goodTxt : String → String := fun f =>
  if f = "name" then "Tree House"
  else if f = "description" then "A shop"
  else if f = "location.area" then "Bangkok"
  else ""

/-- Leaf-node query results of the C10 witness document. The `verified`
and `status.delivery` selectors are the same string, so one branch serves
both fields. -/
def goodQ : String → List Node := fun s =>
  if s = selectorsMap "rating" then [ratingNode]
  else if s = selectorsMap "verified" then [nodeOf "Verified"]
  else if s = selectorsMap "images.main" then [mainImgNode]
  else if s = selectorsMap "products.categories" then [nodeOf "Flowers"]
  else if s = selectorsMap "location.map" then [mapNode]
  else []

/-- Container query results of the C10 witness document. -/
def goodQc : String → List Container := fun s =>
  if s = selectorsMap "products.items" then [cont1] else []

/-- The validated record extracted from the C10 witness document. -/
def c10Record : ShopData :=
  { name := "Tree House"
    description := "A shop"
    rating := mkRat 9 2
    reviews_count := none
    verified := true
    delivery_service := true
    special_offers := []
    images := { main := "https://example.com/main.jpg", gallery := [] }
    products := { categories := ["Flowers"], items := [item1] }
    contact := none
    location :=
      { area := "Bangkok"
        map :=
          { element := strElem mapNode
            coordinates := some { lat := some (mkRat 5 2), lng := some 3 } } }
    metadata := { missing_optional_fields := [], validation_errors := [] } }

/-- `goodRaw` with no match for the map container selector. -/
def mapMissingRaw : RawData := { goodRaw with locationMap := [] }

/-- `goodRaw` with no match for the main-image selector. -/
def noMainImageRaw : RawData := { goodRaw with imagesMain := [] }

/-- `goodRaw` with no match for the reviews-count selector, so the
optional `reviews_count` coerces to null. -/
def noReviewsRaw : RawData := { goodRaw with reviewsCount := [] }

/-- A map container whose `data-lat` does not parse as a float while
`data-lng` does. -/
def badMapNode : Node :=
  { text := "Location", attrs := [("data-lat", "abc"), ("data-lng", "1.0")] }

/-- A rating element present in the document but with non-numeric alt
text. -/
def badRatingNode : Node := { text := "", attrs := [("alt", "excellent")] }

/-- `goodRaw` with the rating element present but non-numeric. -/
def badRatingRaw : RawData := { goodRaw with rating := [badRatingNode] }

/-- The `basic.name` entry of `SELECTORS_TO_TEST` (verify_selectors.py
lines 115-120). -/
def cfgName : VConfig :=
  { selector := "h1"
    required := true
    validation := some (fun n => n.stext ≠ "")
    errorMsg := some "Shop name must not be empty"
    warningMsg := none
    hasExtract := false }

/-- A document in which the `h1` selector matches two elements. -/
def q2 : String → List Node :=
  fun s => if s = "h1" then [nodeOf "Shop A", nodeOf "Shop B"] else []

/-- Pydantic returns the validated record unchanged: a successful
`validateShopData` yields its input. -/
theorem validateShopData_ok_eq (d v : ShopData)
    (h : validateShopData d = Except.ok v) : v = d := by
  unfold validateShopData at h
  split_ifs at h
  injection h with h
  exact h.symm

/-- The product loop succeeds only when every container yields an item,
and then produces exactly one item per container. -/
theorem buildItems_ok : ∀ (cs : List Container) (l : List ProductItem),
    buildItems cs = Except.ok l →
    l.length = cs.length ∧ ∀ c ∈ cs, exceptOk (mkProductItem c) = true := by
  intro cs
  induction cs with
  | nil =>
    intro l h
    unfold buildItems at h
    injection h with h
    subst h
    simp
  | cons c rest ih =>
    intro l h
    unfold buildItems at h
    cases hm : mkProductItem c with
    | error e => rw [hm] at h; exact Except.noConfusion h
    | ok p =>
      rw [hm] at h
      cases hr : buildItems rest with
      | error e => rw [hr] at h; exact Except.noConfusion h
      | ok ps =>
        rw [hr] at h
        injection h with h
        subst h
        have hrest := ih ps hr
        refine ⟨by simp [hrest.1], ?_⟩
        intro x hx
        rcases List.mem_cons.mp hx with h1 | h2
        · rw [h1, hm]; rfl
        · exact hrest.2 x h2

/-- C1 counterexample. Three product containers where only the second
lacks a name do not yield a two-item list: the second container makes
`select_one` return `None`, the `get_text` call raises, and the whole
product assembly aborts with an error instead of excluding the failing
item. -/
theorem c1_counterexample :
    process_products (some [nodeOf "Flowers"]) (some [cont1, contNoName, cont3]) =
      Except.error "AttributeError: NoneType object has no attribute get_text" ∧
    exceptOk
      (process_products (some [nodeOf "Flowers"]) (some [cont1, contNoName, cont3])) =
      false := ⟨rfl, rfl⟩

/-- C1 (amended). Product assembly is all-or-nothing, not
partial-failure tolerant: whenever `_process_products` succeeds it
produces exactly one item per container and every container had a valid
name; a container with a missing or empty name therefore aborts the whole
assembly rather than being excluded from the list. -/
theorem c1_items_all_or_nothing (cats : Option (List Node)) (cs : List Container)
    (p : Products) (h : process_products cats (some cs) = Except.ok p) :
    p.items.length = cs.length ∧ ∀ c ∈ cs, exceptOk (mkProductItem c) = true := by
  simp only [process_products] at h
  cases hb : buildItems cs with
  | error e => rw [hb] at h; exact Except.noConfusion h
  | ok il =>
    rw [hb] at h
    injection h with h
    have hitems : p.items = il := by rw [← h]
    rw [hitems]
    exact buildItems_ok cs il hb

/-- C1 witness: a successful one-container assembly yields exactly one
item. -/
theorem c1_items_all_or_nothing_witness :
    ({ categories := ["Flowers"], items := [item1] } : Products).items.length = 1 :=
  (c1_items_all_or_nothing (some [nodeOf "Flowers"]) [cont1]
    { categories := ["Flowers"], items := [item1] } rfl).1.trans rfl

/-- C2 counterexample. A map container with `data-lat="abc"` and
`data-lng="1.0"` has both attributes present but one unparsable; the
claim says the result is null, yet `_process_map` raises the `float`
conversion error instead of returning a MapLocation with null
coordinates. -/
theorem c2_counterexample :
    process_map [badMapNode] =
      Except.error "ValueError: could not convert string to float" ∧
    exceptOk (process_map [badMapNode]) = false := ⟨rfl, rfl⟩

/-- C2 (amended). Coordinate-pair coercion: if either attribute is absent
or empty the coordinates are null; if both are present and both parse as
floats a fully populated pair is returned; if both are present and either
fails to parse, a ValueError propagates (aborting extraction) instead of
yielding null; a partially populated pair is never produced. -/
theorem c2_coordinate_pair (m : Node) (rest : List Node) :
    ((pyTruthyOpt (m.get "data-lat") = false ∨ pyTruthyOpt (m.get "data-lng") = false) →
      process_map (m :: rest) =
        Except.ok { element := strElem m, coordinates := none }) ∧
    (∀ la ln : ℚ, pyTruthyOpt (m.get "data-lat") = true →
      pyTruthyOpt (m.get "data-lng") = true →
      pyFloat ((m.get "data-lat").getD "") = some la →
      pyFloat ((m.get "data-lng").getD "") = some ln →
      process_map (m :: rest) =
        Except.ok
          { element := strElem m,
            coordinates := some { lat := some la, lng := some ln } }) ∧
    (pyTruthyOpt (m.get "data-lat") = true →
      pyTruthyOpt (m.get "data-lng") = true →
      (pyFloat ((m.get "data-lat").getD "") = none ∨
        pyFloat ((m.get "data-lng").getD "") = none) →
      process_map (m :: rest) =
        Except.error "ValueError: could not convert string to float") ∧
    (∀ (r : MapLoc) (c : Coordinates),
      process_map (m :: rest) = Except.ok r → r.coordinates = some c →
      c.lat.isSome = true ∧ c.lng.isSome = true) := by
  refine ⟨?_, ?_, ?_, ?_⟩
  · intro hor
    have hcond : ¬ (pyTruthyOpt (m.get "data-lat") = true ∧
        pyTruthyOpt (m.get "data-lng") = true) := by
      rcases hor with h | h <;> simp [h]
    simp only [process_map]
    rw [if_neg hcond]
  · intro la ln h1 h2 h3 h4
    simp [process_map, h1, h2, h3, h4]
  · intro h1 h2 hor
    rcases hor with h3 | h3
    · simp [process_map, h1, h2, h3]
    · cases h4 : pyFloat ((m.get "data-lat").getD "") with
      | none => simp [process_map, h1, h2, h4]
      | some v => simp [process_map, h1, h2, h3, h4]
  · intro r c hok hc
    simp only [process_map] at hok
    by_cases hcond : pyTruthyOpt (m.get "data-lat") = true ∧
        pyTruthyOpt (m.get "data-lng") = true
    · rw [if_pos hcond] at hok
      simp only [hcond.1, hcond.2, if_true] at hok
      cases h4 : pyFloat ((m.get "data-lat").getD "") with
      | none => rw [h4] at hok; exact Except.noConfusion hok
      | some la =>
        rw [h4] at hok
        cases h5 : pyFloat ((m.get "data-lng").getD "") with
        | none => rw [h5] at hok; exact Except.noConfusion hok
        | some ln =>
          rw [h5] at hok
          injection hok with hok
          rw [← hok] at hc
          simp at hc
          rw [← hc]
          exact ⟨rfl, rfl⟩
    · rw [if_neg hcond] at hok
      injection hok with hok
      rw [← hok] at hc
      exact Option.noConfusion hc

/-- C2 witness: a map node with `data-lat="2.5"` and `data-lng="3"`
yields the fully populated coordinate pair. -/
theorem c2_coordinate_pair_witness :
    process_map [mapNode] =
      Except.ok
        { element := strElem mapNode,
          coordinates := some { lat := some (mkRat 5 2), lng := some (3 : ℚ) } } :=
  (c2_coordinate_pair mapNode []).2.1 (mkRat 5 2) 3 rfl rfl rfl rfl

/-- C3 counterexample. A document missing the map container fails with
the violation message "Map element is required", which does not name the
offending field path `location.map`, so the universally quantified "each
violation names the offending field_path" part of the claim is false. -/
theorem c3_counterexample :
    extract mapMissingRaw = Except.error "Map element is required" ∧
    containsSub "Map element is required" "location.map" = false := ⟨rfl, rfl⟩

/-- C3 (amended). The extraction path returns either a fully validated
record (one that passes the pydantic validators unchanged and carries an
empty `validation_errors` list) or no record with an error; the first
failure aborts extraction, so a partially valid top-level record is never
returned. A document whose main-image query matches zero nodes yields no
record and exactly one violation, which names `images.main`; but not
every violation names its dotted field path (see the counterexample). -/
theorem c3_extract_outcomes :
    (∀ (rd : RawData) (v : ShopData), extract rd = Except.ok v →
      validateShopData v = Except.ok v ∧ v.metadata.validation_errors = []) ∧
    extract noMainImageRaw =
      Except.error "Required image field images.main is missing" ∧
    containsSub "Required image field images.main is missing" "images.main" =
      true := by
  refine ⟨?_, rfl, rfl⟩
  intro rd v h
  unfold extract at h
  repeat' split at h
  all_goals try exact Except.noConfusion h
  have hv := validateShopData_ok_eq _ _ h
  constructor
  · rw [hv]; rw [hv] at h; exact h
  · rw [hv]

/-- C3 witness: a fully valid document produces a record that passes
validation unchanged with an empty violation list. -/
theorem c3_extract_outcomes_witness :
    validateShopData goodRecord = Except.ok goodRecord ∧
    goodRecord.metadata.validation_errors = [] :=
  c3_extract_outcomes.1 goodRaw goodRecord rfl

/-- C4. Evaluating `extract` at a document whose optional reviews-count
coerces to null: the resulting record has `reviews_count = none` but
`metadata.missing_optional_fields` is still empty, because the local
list initialised at extraction.py line 54 is never appended to. The
second conjunct shows the list is also empty when the optional field is
present. -/
theorem c4_missing_optional_never_recorded :
    (extract noReviewsRaw).toOption.map
      (fun r => (r.reviews_count, r.metadata.missing_optional_fields)) =
      some (none, []) ∧
    (extract goodRaw).toOption.map
      (fun r => (r.reviews_count, r.metadata.missing_optional_fields)) =
      some (some 123, []) := ⟨rfl, rfl⟩

/-- C5 counterexample. A rating element present with non-numeric alt text
"excellent" coerces to the default 0.0 and the extraction succeeds with
an empty violation list, contradicting the claim that this is a
ParseFailure producing a validation violation. -/
theorem c5_counterexample :
    parse_rating [badRatingNode] = Except.ok 0 ∧
    (extract badRatingRaw).toOption.map
      (fun r => (r.rating, r.metadata.validation_errors)) = some (0, []) :=
  ⟨rfl, rfl⟩

/-- C5 (amended). When the rating element is present but its alt text is
non-numeric (or empty), `_parse_rating` silently substitutes the default
0.0 instead of failing; only an absent rating element raises. -/
theorem c5_rating_default (n : Node) (ns : List Node) :
    (∀ w : String, pySplitWsHead ((n.get "alt").getD "0") = some w →
      pyFloat w = none → parse_rating (n :: ns) = Except.ok 0) ∧
    (pySplitWsHead ((n.get "alt").getD "0") = none →
      parse_rating (n :: ns) = Except.ok 0) ∧
    parse_rating [] = Except.error "Rating is required" := by
  refine ⟨?_, ?_, rfl⟩
  · intro w hw hf
    simp [parse_rating, hw, hf]
  · intro hw
    simp [parse_rating, hw]

/-- C5 witness: the non-numeric alt text "excellent" yields the default
rating 0.0. -/
theorem c5_rating_default_witness : parse_rating [badRatingNode] = Except.ok 0 :=
  (c5_rating_default badRatingNode []).1 "excellent" rfl rfl

/-- C6 counterexample. On the text "12a345" the source concatenates all
digit characters and parses 12345.0, while the longest digit run is
"345", so the longest-run description of the claim does not match the
code. -/
theorem c6_counterexample :
    parse_price (some (nodeOf "12a345")) = some 12345 ∧
    longestDigitRunParse "12a345" = some 345 ∧
    (12345 : ℚ) ≠ (345 : ℚ) := ⟨rfl, rfl, by decide⟩

/-- C6 (amended). Number-from-text coercion concatenates every digit
character of the stripped node text and parses the concatenation (not
the longest digit run); with no digit characters it yields null; both
applications (price, reviews count) are optional fields and never raise;
a falsy element also yields null. -/
theorem c6_digit_concatenation (n : Node) (ns : List Node) :
    parse_price (some n) = (concatDigitsNat n.stext).map (fun k => ((k : ℕ) : ℚ)) ∧
    parse_price none = none ∧
    parse_reviews_count (n :: ns) = concatDigitsNat n.stext ∧
    parse_reviews_count [] = none ∧
    ((∀ c ∈ n.stext.toList, ¬ c.isDigit = true) → parse_price (some n) = none) := by
  refine ⟨?_, rfl, ?_, rfl, ?_⟩
  · cases hd : (n.stext.toList.filter Char.isDigit).isEmpty <;>
      (simp only [parse_price, concatDigitsNat, hd]; try rfl)
  · cases hd : (n.stext.toList.filter Char.isDigit).isEmpty <;>
      (simp only [parse_reviews_count, concatDigitsNat, hd]; try rfl)
  · intro hnd
    have hfil : n.stext.toList.filter Char.isDigit = [] := by
      rw [List.filter_eq_nil_iff]
      exact hnd
    simp only [parse_price, hfil, List.isEmpty_nil]
    rfl

/-- C6 witness: "$1200" coerces to 1200.0 and the digit-free text "abc"
coerces to null. -/
theorem c6_digit_concatenation_witness :
    parse_price (some (nodeOf "$1200")) = some 1200 ∧
    parse_price (some (nodeOf "abc")) = none := by
  constructor
  · rw [(c6_digit_concatenation (nodeOf "$1200") []).1]
    rfl
  · exact (c6_digit_concatenation (nodeOf "abc") []).2.2.2.2 (by decide)

/-- C7 counterexample. Product-category list coercion keeps
empty-after-trim entries: matched texts "  ", "A", "" coerce to
["", "A", ""], not ["A"], so the drop-empties behaviour claimed for every
list-of-text field does not hold for `products.categories`. -/
theorem c7_counterexample :
    process_products (some [nodeOf "  ", nodeOf "A", nodeOf ""]) (some []) =
      Except.ok { categories := ["", "A", ""], items := [] } ∧
    (["", "A", ""] : List String) ≠ ["A"] := ⟨rfl, by decide⟩

/-- C7 (amended). List-of-text coercion preserves document order in all
cases, but only the special-offers coercion drops entries that are empty
after trimming; the product-categories coercion maps every matched node
to its trimmed text and keeps empty entries. -/
theorem c7_list_coercion (offers cats : List Node) (items : Option (List Container))
    (p : Products) :
    parse_special_offers offers =
      (offers.map Node.stext).filter (fun s => s ≠ "") ∧
    (process_products (some cats) items = Except.ok p →
      p.categories = cats.map Node.stext) := by
  constructor
  · induction offers with
    | nil => rfl
    | cons n rest ih =>
      by_cases h : n.stext = "" <;>
        simp [parse_special_offers, List.filter, h] at * <;>
        simpa [h] using ih
  · intro h
    cases items with
    | none =>
      simp only [process_products] at h
      injection h with h
      rw [← h]
    | some cs =>
      simp only [process_products] at h
      cases hb : buildItems cs with
      | error e => rw [hb] at h; exact Except.noConfusion h
      | ok il =>
        rw [hb] at h
        injection h with h
        rw [← h]

/-- C7 witness: the special-offers coercion drops the empty entries of
"  ", "A", "" yielding ["A"], while the category coercion keeps them. -/
theorem c7_list_coercion_witness :
    parse_special_offers [nodeOf "  ", nodeOf "A", nodeOf ""] = ["A"] ∧
    ({ categories := ["", "A", ""], items := [] } : Products).categories =
      [nodeOf "  ", nodeOf "A", nodeOf ""].map Node.stext := by
  constructor
  · rw [(c7_list_coercion [nodeOf "  ", nodeOf "A", nodeOf ""] [] none
      { categories := [], items := [] }).1]
    rfl
  · exact (c7_list_coercion [] [nodeOf "  ", nodeOf "A", nodeOf ""] (some [])
      { categories := ["", "A", ""], items := [] }).2 rfl

/-- C8 counterexample. With two matched elements for the `basic.name`
field, `validate_selector` produces four samples (the constructor builds
one plain sample per element and the sampling loop appends one more per
element), exceeding the claimed bound of three. -/
theorem c8_counterexample :
    (validate_selector q2 strElem "basic" "name" cfgName).samples.length = 4 ∧
    ¬ ((validate_selector q2 strElem "basic" "name" cfgName).samples.length ≤ 3) :=
  ⟨rfl, by decide⟩

/-- C8 (amended). For every field and document, the samples list of the
produced result has exactly twice the number of sampled elements, i.e.
2 * min(match_count, 3), and is therefore bounded by 6, not 3. -/
theorem c8_samples_bound (q : String → List Node) (ctx : Node → String)
    (sect fld : String) (config : VConfig) :
    (validate_selector q ctx sect fld config).samples.length =
      2 * min (q config.selector).length 3 ∧
    (validate_selector q ctx sect fld config).samples.length ≤ 6 := by
  have hlen : (validate_selector q ctx sect fld config).samples.length =
      2 * min (q config.selector).length 3 := by
    simp only [validate_selector, List.length_append, List.length_map,
      List.length_take]
    omega
  exact ⟨hlen, by rw [hlen]; omega⟩

/-- C9. Every `ShopData` record that passes the pydantic validation has a
non-empty main image, non-empty product categories and items, a non-empty
location area, a rating in the closed interval from 0 to 5, and a
non-negative reviews count whenever one is present. The `location.map`
sub-object is present by construction (the model stores a `MapLoc`
value, mirroring the always-truthy map dict of the source). -/
theorem c9_validated_invariants (d v : ShopData)
    (h : validateShopData d = Except.ok v) :
    v.images.main ≠ "" ∧ v.products.categories ≠ [] ∧ v.products.items ≠ [] ∧
    v.location.area ≠ "" ∧ 0 ≤ v.rating ∧ v.rating ≤ 5 ∧
    (∀ n : ℤ, v.reviews_count = some n → 0 ≤ n) := by
  have hv := validateShopData_ok_eq d v h
  subst hv
  unfold validateShopData at h
  split_ifs at h with h1 h2 h3 h4 h5 h6
  refine ⟨h3, ?_, ?_, h6, ?_, ?_, ?_⟩
  · intro hc
    exact h4 (by simp [hc])
  · intro hc
    exact h5 (by simp [hc])
  · exact h1.1
  · exact h1.2
  · intro n hn
    rw [hn] at h2
    simp [Option.any] at h2
    omega

/-- C9 witness: the concrete validated record satisfies every invariant. -/
theorem c9_validated_invariants_witness :
    goodRecord.images.main ≠ "" ∧ goodRecord.products.categories ≠ [] ∧
    goodRecord.products.items ≠ [] ∧ goodRecord.location.area ≠ "" ∧
    0 ≤ goodRecord.rating ∧ goodRecord.rating ≤ 5 ∧
    (∀ n : ℤ, goodRecord.reviews_count = some n → 0 ≤ n) :=
  c9_validated_invariants goodRecord goodRecord rfl

/-- C10. The selector table maps `verified` and `status.delivery` to the
identical query string, and both fields are boolean-presence coercions of
their query results, so every record extracted from any document carries
`verified = delivery_service`. -/
theorem c10_verified_eq_delivery :
    selectorsMap "verified" = selectorsMap "status.delivery" ∧
    ∀ (q : String → List Node) (qc : String → List Container)
      (txt : String → String) (v : ShopData),
      extract (rawFromDoc q qc txt) = Except.ok v →
      v.verified = v.delivery_service := by
  refine ⟨rfl, ?_⟩
  intro q qc txt v h
  unfold extract at h
  repeat' split at h
  all_goals try exact Except.noConfusion h
  have hv := validateShopData_ok_eq _ _ h
  subst hv
  rfl

/-- C10 witness: a concrete document extracts successfully and its record
has equal `verified` and `delivery_service` flags. -/
theorem c10_verified_eq_delivery_witness :
    extract (rawFromDoc goodQ goodQc goodTxt) = Except.ok c10Record ∧
    c10Record.verified = c10Record.delivery_service :=
  ⟨rfl, c10_verified_eq_delivery.2 goodQ goodQc goodTxt c10Record rfl⟩
